import Mathlib

/-!
Verification of the worldquant-agent control core against its source
(`src/mcp_client.py`, `src/storage.py`, `src/graph.py`, `src/run.py`).
The Python code is shallowly embedded: platform values become `PyVal`,
exceptions become an `Err` sum returned through `Except`, the external
platform module becomes an explicit `ToolEnv`, and the tenacity retry
decorator becomes the `retryRun` combinator together with the
`waitExponential` backoff schedule.
-/

namespace WQAgent

/-- Embedding of the Python values exchanged with the platform tools
(JSON-like: dicts, lists, strings, numbers, booleans, None).  SQL REAL
scores are modelled as rationals. -/
inductive PyVal : Type where
  | none : PyVal
  | bool (b : Bool) : PyVal
  | int (n : Int) : PyVal
  | num (q : ℚ) : PyVal
  | str (s : String) : PyVal
  | list (xs : List PyVal) : PyVal
  | dict (kvs : List (String × PyVal)) : PyVal

/-- Python truthiness, `bool(v)`. -/
def pyTruthy : PyVal → Bool
  | PyVal.none => false
  | PyVal.bool b => b
  | PyVal.int n => n != 0
  | PyVal.num q => q != 0
  | PyVal.str s => s != ""
  | PyVal.list xs => !xs.isEmpty
  | PyVal.dict kvs => !kvs.isEmpty

/-- `isinstance(v, dict)`. -/
def pyIsDict : PyVal → Bool
  | PyVal.dict _ => true
  | _ => false

/-- `k in v` for a dict `v` (false on non-dicts). -/
def pyHasKey : PyVal → String → Bool
  | PyVal.dict kvs, k => (kvs.lookup k).isSome
  | _, _ => false

/-- `v.get(k, dflt)` for a dict `v`. -/
def pyGetD (v : PyVal) (k : String) (dflt : PyVal) : PyVal :=
  match v with
  | PyVal.dict kvs => (kvs.lookup k).getD dflt
  | _ => dflt

/-- The exception taxonomy raised by `mcp_client.py`:
`AttributeError` when a tool name does not resolve, `RuntimeError` for
shape validation, and any exception raised by the platform tool itself. -/
inductive Err : Type where
  | toolNotFound (msg : String) : Err
  | invalidResponse (msg : String) : Err
  | platformFailure (msg : String) : Err
deriving DecidableEq

/-- The `worldquant_platform_functions` module, embedded as an opaque-to-us
environment: which names resolve to callables (`_has_tool`), whether the
callable accepts a `timeout` parameter, and the outcome of invoking a name
with keyword arguments on the n-th retry attempt (1-based). -/
structure ToolEnv : Type where
  has : String → Bool
  wantsTimeout : String → Bool
  invoke : String → List (String × PyVal) → Nat → Except Err PyVal

/-- Configuration of `MCPClient.__init__`. -/
structure MCPClient : Type where
  default_timeout : Int := 30
  query_tool : String := "get_submission_check"

/-- An `MCPClient()` constructed with the defaults, as in `run.main`. -/
def mcpDefault : MCPClient := {}

/-- `MCPClient._call_tool`: raises `AttributeError` when the tool does not
resolve, injects the default timeout when the signature accepts one and the
caller did not pass one, then invokes the platform function. -/
def callTool (c : MCPClient) (env : ToolEnv) (name : String)
    (kwargs : List (String × PyVal)) (attempt : Nat) : Except Err PyVal :=
  if env.has name then
    let kwargs2 :=
      if env.wantsTimeout name && (kwargs.lookup "timeout").isNone then
        kwargs ++ [("timeout", PyVal.int c.default_timeout)]
      else kwargs
    env.invoke name kwargs2 attempt
  else
    Except.error (Err.toolNotFound
      ("Platform tool " ++ name ++ " not found in worldquant_platform_functions"))

/-- `RETRY_ATTEMPTS` from mcp_client.py. -/
def RETRY_ATTEMPTS : Nat := 5
/-- `RETRY_WAIT_MULTIPLIER` from mcp_client.py. -/
def RETRY_WAIT_MULTIPLIER : Nat := 1
/-- `RETRY_WAIT_MAX` from mcp_client.py. -/
def RETRY_WAIT_MAX : Nat := 30

/-- tenacity `wait_exponential(multiplier, min, max)`: the wait after the
n-th failed attempt is `max(max(0, min), min(multiplier * 2^(n-1), max))`. -/
def waitExponential (multiplier mn mx n : Nat) : Nat :=
  max (max 0 mn) (min (multiplier * 2 ^ (n - 1)) mx)

/-- The backoff schedule configured on every retry decorator in
mcp_client.py: `wait_exponential(multiplier=1, min=1, max=30)`. -/
def backoffWait (n : Nat) : Nat :=
  waitExponential RETRY_WAIT_MULTIPLIER 1 RETRY_WAIT_MAX n

/-- tenacity `retry(stop=stop_after_attempt(fuel), retry=retry_if_exception_type(Exception),
reraise=True)`: `f i` is the outcome of the i-th attempt (1-based); the
result pairs the number of attempts actually made with the final outcome
(the success value, or the last failure re-raised unchanged). -/
def retryRun {α : Type} (f : Nat → Except Err α) : Nat → Nat → Nat × Except Err α
  | 0, i => (1, f i)
  | 1, i => (1, f i)
  | fuel + 2, i =>
    match f i with
    | Except.ok a => (1, Except.ok a)
    | Except.error _ =>
      let r := retryRun f (fuel + 1) (i + 1)
      (r.1 + 1, r.2)

/-- The retry policy instantiated with `RETRY_ATTEMPTS = 5`, starting at
attempt 1, as every `@retry(...)` decorator in mcp_client.py does. -/
def withRetry {α : Type} (f : Nat → Except Err α) : Nat × Except Err α :=
  retryRun f RETRY_ATTEMPTS 1

/-- `MCPClient.run_tool`: `_call_tool` under the retry decorator. -/
def run_tool (c : MCPClient) (env : ToolEnv) (name : String)
    (kwargs : List (String × PyVal)) : Nat × Except Err PyVal :=
  withRetry (fun i => callTool c env name kwargs i)

/-- One attempt of `MCPClient.wq_create_simulation`: `meta = meta or {}`,
explicit `_has_tool` check, the `_call_tool` invocation, and the response
shape validation (`dict` containing `location`). -/
def wq_create_simulation_attempt (c : MCPClient) (env : ToolEnv)
    (settings : PyVal) (regular : String) (meta : PyVal) (i : Nat) :
    Except Err PyVal :=
  let meta2 := if pyTruthy meta then meta else PyVal.dict []
  if env.has "create_simulation" then
    match callTool c env "create_simulation"
        [("settings", settings), ("regular", PyVal.str regular), ("meta", meta2)] i with
    | Except.error e => Except.error e
    | Except.ok resp =>
      if !pyIsDict resp || !pyHasKey resp "location" then
        Except.error (Err.invalidResponse
          "create_simulation must return dict containing location")
      else Except.ok resp
  else
    Except.error (Err.toolNotFound "Platform does not implement create_simulation")

/-- `MCPClient.wq_create_simulation`: the attempt under the retry decorator. -/
def wq_create_simulation (c : MCPClient) (env : ToolEnv)
    (settings : PyVal) (regular : String) (meta : PyVal) : Nat × Except Err PyVal :=
  withRetry (wq_create_simulation_attempt c env settings regular meta)

/-- One attempt of `MCPClient.wq_get_result`: explicit `_has_tool` check on
the configured query tool, the `_call_tool` invocation, and the `dict`
shape validation. -/
def wq_get_result_attempt (c : MCPClient) (env : ToolEnv) (location : String)
    (i : Nat) : Except Err PyVal :=
  if env.has c.query_tool then
    match callTool c env c.query_tool [("location", PyVal.str location)] i with
    | Except.error e => Except.error e
    | Except.ok resp =>
      if pyIsDict resp then Except.ok resp
      else Except.error (Err.invalidResponse
        ("Query tool " ++ c.query_tool ++ " returned invalid response"))
  else
    Except.error (Err.toolNotFound
      ("Platform does not implement query tool " ++ c.query_tool))

/-- `MCPClient.wq_get_result`: the attempt under the retry decorator. -/
def wq_get_result (c : MCPClient) (env : ToolEnv) (location : String) :
    Nat × Except Err PyVal :=
  withRetry (wq_get_result_attempt c env location)

/-- Conversion of a rate-limit response to a boolean, as in
`rate_limit_acquire`: `bool(resp.get("ok", True))` on dicts, `bool(resp)`
otherwise. -/
def boolFromResp (resp : PyVal) : Bool :=
  if pyIsDict resp then pyTruthy (pyGetD resp "ok" (PyVal.bool true))
  else pyTruthy resp

/-- The `for fn in (...)` loop of `MCPClient.rate_limit_acquire`: take the
first resolvable name, absorb any exception into `False`; the fall-through
default grants the permit and logs.  Results pair the returned boolean with
the warning messages logged. -/
def rate_limit_acquire_go (c : MCPClient) (env : ToolEnv) (name : String)
    (permits : Int) : List String → Bool × List String
  | [] => (true, ["No rate limit acquire tool found; defaulting to True"])
  | fn :: rest =>
    if env.has fn then
      match callTool c env fn [("name", PyVal.str name), ("permits", PyVal.int permits)] 1 with
      | Except.ok resp => (boolFromResp resp, [])
      | Except.error _ => (false, ["rate_limit_acquire(" ++ name ++ ") raised"])
    else rate_limit_acquire_go c env name permits rest

/-- `MCPClient.rate_limit_acquire`; the source iterates a duplicated tool
name tuple `("acquire_rate_limit", "acquire_rate_limit")`. -/
def rate_limit_acquire (c : MCPClient) (env : ToolEnv) (name : String)
    (permits : Int) : Bool × List String :=
  rate_limit_acquire_go c env name permits ["acquire_rate_limit", "acquire_rate_limit"]

/-- The `for fn in (...)` loop of `MCPClient.rate_limit_release`: take the
first resolvable name, absorb any exception; the function only produces log
messages. -/
def rate_limit_release_go (c : MCPClient) (env : ToolEnv) (name : String)
    (permits : Int) : List String → List String
  | [] => ["No rate limit release tool found; skipping"]
  | fn :: rest =>
    if env.has fn then
      match callTool c env fn [("name", PyVal.str name), ("permits", PyVal.int permits)] 1 with
      | Except.ok _ => []
      | Except.error _ => ["rate_limit_release(" ++ name ++ ") raised"]
    else rate_limit_release_go c env name permits rest

/-- `MCPClient.rate_limit_release`; the source iterates a duplicated tool
name tuple `("release_rate_limit", "release_rate_limit")`. -/
def rate_limit_release (c : MCPClient) (env : ToolEnv) (name : String)
    (permits : Int) : List String :=
  rate_limit_release_go c env name permits ["release_rate_limit", "release_rate_limit"]

/-- One `store_put`-style invocation through a given tool name, with the
exception absorbed into `False`: on success, `bool(resp.get("ok", True))`
for dicts and `True` otherwise (both the primary branch and the alternate
branch of the source use this same conversion). -/
def store_put_viaTool (c : MCPClient) (env : ToolEnv) (fn key : String)
    (value : PyVal) : Bool :=
  match callTool c env fn [("key", PyVal.str key), ("value", value)] 1 with
  | Except.ok resp =>
    if pyIsDict resp then pyTruthy (pyGetD resp "ok" (PyVal.bool true)) else true
  | Except.error _ => false

/-- The `for alt in (...)` fallback loop of `MCPClient.store_put`: the first
resolvable alternate is invoked and its outcome returned (the `except`
clause returns `False` without continuing the loop); `False` when no
alternate resolves. -/
def store_put_go (c : MCPClient) (env : ToolEnv) (key : String) (value : PyVal) :
    List String → Bool
  | [] => false
  | fn :: rest =>
    if env.has fn then store_put_viaTool c env fn key value
    else store_put_go c env key value rest

/-- `MCPClient.store_put`: primary name `store_put`, then the alternates
`save_simulation_data` and `manage_config` in declared order. -/
def store_put (c : MCPClient) (env : ToolEnv) (key : String) (value : PyVal) : Bool :=
  if env.has "store_put" then store_put_viaTool c env "store_put" key value
  else store_put_go c env key value ["save_simulation_data", "manage_config"]

/-- One `store_get`-style invocation through a given tool name, with the
exception absorbed into `None`; on success the response is returned as-is. -/
def store_get_viaTool (c : MCPClient) (env : ToolEnv) (fn key : String) :
    Option PyVal :=
  match callTool c env fn [("key", PyVal.str key)] 1 with
  | Except.ok resp => some resp
  | Except.error _ => Option.none

/-- The `for alt in (...)` fallback loop of `MCPClient.store_get`: the first
resolvable alternate is invoked and its outcome returned (the `except`
clause returns `None` without continuing the loop); `None` when no
alternate resolves. -/
def store_get_go (c : MCPClient) (env : ToolEnv) (key : String) :
    List String → Option PyVal
  | [] => Option.none
  | fn :: rest =>
    if env.has fn then store_get_viaTool c env fn key
    else store_get_go c env key rest

/-- `MCPClient.store_get`: primary name `store_get`, then the alternates
`get_platform_setting_options` and `get_user_profile` in declared order. -/
def store_get (c : MCPClient) (env : ToolEnv) (key : String) : Option PyVal :=
  if env.has "store_get" then store_get_viaTool c env "store_get" key
  else store_get_go c env key ["get_platform_setting_options", "get_user_profile"]

/-- A row of the `snapshots` table of storage.py:
`(ts INTEGER, round_idx INTEGER, state_json TEXT)`; the JSON round trip
`json.loads(json.dumps(state))` is modelled as the identity, so the
serialized state is kept as a `PyVal`. -/
structure SnapRow : Type where
  ts : Nat
  round_idx : Nat
  state_json : PyVal

/-- A row of the `leaderboard` table of storage.py:
`(ts INTEGER, expr TEXT, settings_json TEXT, score REAL, comment TEXT)`. -/
structure LbRow : Type where
  ts : Nat
  expr : String
  settings : PyVal
  score : ℚ
  comment : String

/-- `SQLiteStore`: the two tables created by `_init`. -/
structure SQLiteStore : Type where
  snapshots : List SnapRow
  leaderboard : List LbRow

/-- A freshly created store: both tables empty. -/
def emptyStore : SQLiteStore := { snapshots := [], leaderboard := [] }

/-- `SQLiteStore.save_snapshot`: `INSERT INTO snapshots VALUES (ts, round_idx,
state_json)` — appends one committed row; `ts` is the wall clock read
`int(time.time())` at the call, passed explicitly here. -/
def save_snapshot (st : SQLiteStore) (ts : Nat) (round_idx : Nat) (state : PyVal) :
    SQLiteStore :=
  { st with snapshots := st.snapshots ++ [⟨ts, round_idx, state⟩] }

/-- The row selected by `ORDER BY ts DESC LIMIT 1`: a row of maximal `ts`.
SQLite leaves the order of rows with equal `ts` undefined; this model keeps
the later-inserted row on ties. -/
def maxTsRow : List SnapRow → Option SnapRow
  | [] => Option.none
  | r :: rs =>
    match maxTsRow rs with
    | Option.none => some r
    | some m => if m.ts ≥ r.ts then some m else some r

/-- `SQLiteStore.load_latest_snapshot`: the `state_json` of the most recent
snapshot row, or the empty mapping `{}` when the table is empty. -/
def load_latest_snapshot (st : SQLiteStore) : PyVal :=
  match maxTsRow st.snapshots with
  | some r => r.state_json
  | Option.none => PyVal.dict []

/-- `SQLiteStore.add_leaderboard`: `INSERT INTO leaderboard VALUES (...)`. -/
def add_leaderboard (st : SQLiteStore) (ts : Nat) (expr : String)
    (settings : PyVal) (score : ℚ) (comment : String) : SQLiteStore :=
  { st with leaderboard := st.leaderboard ++ [⟨ts, expr, settings, score, comment⟩] }

/-- The `ORDER BY score DESC` comparison on leaderboard rows. -/
def scoreGE (a b : LbRow) : Prop := b.score ≤ a.score

instance : DecidableRel scoreGE :=
  fun a b => inferInstanceAs (Decidable (b.score ≤ a.score))

instance : IsTotal LbRow scoreGE := ⟨fun a b => le_total b.score a.score⟩

instance : IsTrans LbRow scoreGE := ⟨fun _ _ _ hab hbc => le_trans hbc hab⟩

/-- The sort performed by `ORDER BY score DESC`, realized as an insertion
sort — one concrete refinement of the SQL ordering.  SQLite leaves the
relative order of rows with equal scores undefined, so no theorem below
relies on this model's behaviour on ties: tie-sensitive statements are
guarded by a pairwise-distinct-scores hypothesis, under which every
compliant ordering is proved to coincide with this one. -/
def sortByScoreDesc (l : List LbRow) : List LbRow := List.insertionSort scoreGE l

/-- The dict built for each returned row of `top_k`:
`{"expr": ..., "settings": ..., "score": ..., "ts": ...}` — the stored
`comment` column is not selected. -/
def lbRowToDict (r : LbRow) : PyVal :=
  PyVal.dict [("expr", PyVal.str r.expr), ("settings", r.settings),
    ("score", PyVal.num r.score), ("ts", PyVal.int (Int.ofNat r.ts))]

/-- `SQLiteStore.top_k`: `SELECT expr, settings_json, score, ts FROM
leaderboard ORDER BY score DESC LIMIT k`, each row packed into a dict. -/
def top_k (st : SQLiteStore) (k : Nat) : List PyVal :=
  ((sortByScoreDesc st.leaderboard).take k).map lbRowToDict

/-- The nodes of the graph built by `graph.build_graph`, plus the `END`
sentinel of the framework. -/
inductive GNode : Type where
  | planner : GNode
  | author : GNode
  | risk : GNode
  | submit : GNode
  | poll : GNode
  | analyze : GNode
  | decide : GNode
  | END : GNode
deriving DecidableEq

/-- The edge structure declared in `build_graph`: the linear chain
`planner → author → risk → submit → poll → analyze → decide` and the
conditional edge `decide → (END if s.stop else author)`, evaluated on the
state left by the node just executed. -/
def nextNode (stop : Bool) : GNode → GNode
  | GNode.planner => GNode.author
  | GNode.author => GNode.risk
  | GNode.risk => GNode.submit
  | GNode.submit => GNode.poll
  | GNode.poll => GNode.analyze
  | GNode.analyze => GNode.decide
  | GNode.decide => if stop then GNode.END else GNode.author
  | GNode.END => GNode.END

/-- Modelled from the spec: `models.GraphState` (the `RoundState` aggregate;
models.py is not under src/).  `round_idx` starts at 0, `feedback` is empty
on round 0, `stop` starts false; the optional candidate/result/score fields
and the history are carried as generic `PyVal` payloads. -/
structure GraphState : Type where
  goal : String
  max_rounds : Nat
  round_idx : Nat := 0
  feedback : String := ""
  current_candidate : Option PyVal := Option.none
  current_result : Option PyVal := Option.none
  current_score : Option ℚ := Option.none
  current_comment : Option String := Option.none
  best : Option PyVal := Option.none
  history : List PyVal := []
  stop : Bool := false

/-- The initial state built in `run.main`:
`GraphState(goal="Find robust alphas with low turnover and high stability.", max_rounds=5)`. -/
def initState : GraphState :=
  { goal := "Find robust alphas with low turnover and high stability.", max_rounds := 5 }

/-- `state.dict()` as used by `run.main` when persisting the snapshot. -/
def stateToPy (s : GraphState) : PyVal :=
  PyVal.dict
    [("goal", PyVal.str s.goal),
     ("max_rounds", PyVal.int (Int.ofNat s.max_rounds)),
     ("round_idx", PyVal.int (Int.ofNat s.round_idx)),
     ("feedback", PyVal.str s.feedback),
     ("current_candidate", s.current_candidate.getD PyVal.none),
     ("current_result", s.current_result.getD PyVal.none),
     ("current_score", (s.current_score.map PyVal.num).getD PyVal.none),
     ("current_comment", (s.current_comment.map PyVal.str).getD PyVal.none),
     ("best", s.best.getD PyVal.none),
     ("history", PyVal.list s.history),
     ("stop", PyVal.bool s.stop)]

/-- Modelled from the spec: execution of the compiled graph
(`app.invoke`).  The node bodies (nodes_author_risk.py, nodes_submit_poll.py,
nodes_analyze_decide.py are not under src/) are abstracted as `act`; each
stage either transforms the state or raises.  A raised failure propagates
out of the state machine carrying no state, but the error value is paired
here with the state as of just before the failing stage so that the spec's
snapshot contract can be stated about it.  `fuel` bounds the number of
node executions. -/
def graphInvoke (act : GNode → GraphState → Except Err GraphState) :
    Nat → GNode → GraphState → Except (Err × GraphState) GraphState
  | 0, _, s => Except.ok s
  | fuel + 1, n, s =>
    if n = GNode.END then Except.ok s
    else
      match act n s with
      | Except.error e => Except.error (e, s)
      | Except.ok s2 => graphInvoke act fuel (nextNode s2.stop n) s2

/-- The observable outcome of one run of `run.main`: the exception it
re-raises (if any), the final contents of the store, the recovery messages
printed to stderr, and the final state on success. -/
structure MainOutcome : Type where
  raised : Option Err
  store : SQLiteStore
  logs : List String
  finalState : Option GraphState

/-- `run.main`: drives the graph from `planner` on `initState`; on success
returns the final state; on failure attempts
`store.save_snapshot(init.round_idx, init.dict())` — the *initial* state —
logging a secondary failure of that save (`saveErr` models whether the
SQLite write itself raises) and re-raising the original failure. -/
def mainModel (act : GNode → GraphState → Except Err GraphState) (fuel : Nat)
    (st : SQLiteStore) (ts : Nat) (saveErr : Option String) : MainOutcome :=
  match graphInvoke act fuel GNode.planner initState with
  | Except.ok final =>
    { raised := Option.none, store := st, logs := [], finalState := some final }
  | Except.error (e, _) =>
    match saveErr with
    | Option.none =>
      { raised := some e,
        store := save_snapshot st ts initState.round_idx (stateToPy initState),
        logs := ["Graph invocation raised exception:",
                 "Saved snapshot of initial state for recovery."],
        finalState := Option.none }
    | some msg =>
      { raised := some e, store := st,
        logs := ["Graph invocation raised exception:",
                 "Failed to save snapshot: " ++ msg],
        finalState := Option.none }

/-- An environment in which no capability resolves at all. -/
def envEmpty : ToolEnv :=
  { has := fun _ => false,
    wantsTimeout := fun _ => false,
    invoke := fun _ _ _ => Except.error (Err.platformFailure "unreachable") }

theorem retryRun_allFail {α : Type} (f : Nat → Except Err α) (err : Nat → Err)
    (hf : ∀ i, f i = Except.error (err i)) :
    ∀ n i, retryRun f (n + 1) i = (n + 1, Except.error (err (n + i))) := by
  intro n
  induction n with
  | zero => intro i; simp [retryRun, hf i]
  | succ n ih =>
    intro i
    have h1 : n + (i + 1) = n + 1 + i := by omega
    simp [retryRun, hf i, ih (i + 1), h1]

theorem retryRun_succAt {α : Type} (f : Nat → Except Err α) (v : α) :
    ∀ (m fuel i : Nat), m < fuel →
      (∀ j, i ≤ j → j < i + m → ∃ e, f j = Except.error e) →
      f (i + m) = Except.ok v →
      retryRun f fuel i = (m + 1, Except.ok v) := by
  intro m
  induction m with
  | zero =>
    intro fuel i hm hfail hok
    rw [Nat.add_zero] at hok
    match fuel, hm with
    | fuel + 1, _ =>
      cases fuel with
      | zero => simp [retryRun, hok]
      | succ fuel => simp [retryRun, hok]
  | succ m ih =>
    intro fuel i hm hfail hok
    obtain ⟨fuel2, rfl⟩ : ∃ b, fuel = b + 2 := ⟨fuel - 2, by omega⟩
    obtain ⟨e, he⟩ := hfail i (le_refl i) (by omega)
    have hr := ih (fuel2 + 1) (i + 1) (by omega)
      (fun j hj1 hj2 => hfail j (by omega) (by omega))
      (by have h2 : i + 1 + m = i + (m + 1) := by omega
          rw [h2]; exact hok)
    simp [retryRun, he, hr]

theorem backoffWait_mono (n : Nat) : backoffWait n ≤ backoffWait (n + 1) := by
  unfold backoffWait waitExponential RETRY_WAIT_MULTIPLIER RETRY_WAIT_MAX
  have h : (2 : Nat) ^ (n - 1) ≤ 2 ^ (n + 1 - 1) :=
    Nat.pow_le_pow_right (by norm_num) (by omega)
  simp only [one_mul]
  exact max_le_max (le_refl _) (min_le_min h (le_refl 30))

theorem backoffWait_le (n : Nat) : backoffWait n ≤ RETRY_WAIT_MAX := by
  unfold backoffWait waitExponential RETRY_WAIT_MAX
  exact max_le (by norm_num) (min_le_right _ _)

theorem backoffWait_double (n : Nat) (h1 : 1 ≤ n)
    (h2 : 2 * backoffWait n ≤ RETRY_WAIT_MAX) :
    backoffWait (n + 1) = 2 * backoffWait n := by
  obtain ⟨m, rfl⟩ : ∃ m, n = m + 1 := ⟨n - 1, by omega⟩
  unfold backoffWait waitExponential RETRY_WAIT_MULTIPLIER RETRY_WAIT_MAX at *
  simp only [one_mul, Nat.add_sub_cancel, pow_succ] at *
  have hx : 0 < (2 : Nat) ^ m := Nat.two_pow_pos m
  generalize hg : (2 : Nat) ^ m = x at *
  omega

/-- C1: every call wrapped by the retry decorator (`run_tool`,
`wq_create_simulation`, `wq_get_result`) makes exactly 5 attempts when the
capability fails on every attempt and re-raises the last failure unchanged;
when the capability fails the first `k < 5` attempts and then succeeds, the
call returns exactly the success value after `k + 1` attempts; the
inter-attempt delay follows exponential backoff starting at 1 time unit
(1, 2, 4, 8), doubling while under the cap, non-decreasing, and capped at
30 units. -/
theorem C1_retrying_caller (c : MCPClient) (env : ToolEnv) (name : String)
    (kwargs : List (String × PyVal))
    (f g : Nat → Except Err PyVal) (err : Nat → Err) (k : Nat) (v : PyVal)
    (hfail : ∀ i, f i = Except.error (err i))
    (hk : k < RETRY_ATTEMPTS)
    (hgf : ∀ j, 1 ≤ j → j ≤ k → ∃ e, g j = Except.error e)
    (hgs : g (k + 1) = Except.ok v) :
    withRetry f = (RETRY_ATTEMPTS, Except.error (err RETRY_ATTEMPTS))
    ∧ withRetry g = (k + 1, Except.ok v)
    ∧ run_tool c env name kwargs = withRetry (fun i => callTool c env name kwargs i)
    ∧ (∀ settings regular meta, wq_create_simulation c env settings regular meta
        = withRetry (wq_create_simulation_attempt c env settings regular meta))
    ∧ (∀ location, wq_get_result c env location
        = withRetry (wq_get_result_attempt c env location))
    ∧ backoffWait 1 = 1 ∧ backoffWait 2 = 2 ∧ backoffWait 3 = 4 ∧ backoffWait 4 = 8
    ∧ (∀ n, backoffWait n ≤ backoffWait (n + 1))
    ∧ (∀ n, backoffWait n ≤ RETRY_WAIT_MAX)
    ∧ (∀ n, 1 ≤ n → 2 * backoffWait n ≤ RETRY_WAIT_MAX →
        backoffWait (n + 1) = 2 * backoffWait n) := by
  refine ⟨?_, ?_, rfl, fun _ _ _ => rfl, fun _ => rfl, by decide, by decide, by decide,
    by decide, backoffWait_mono, backoffWait_le, backoffWait_double⟩
  · have h := retryRun_allFail f err hfail 4 1
    unfold withRetry RETRY_ATTEMPTS
    simpa using h
  · have hk5 : k < 5 := hk
    have h := retryRun_succAt g v k 5 1 hk5
      (fun j hj1 hj2 => hgf j hj1 (by omega))
      (by have h2 : 1 + k = k + 1 := by omega
          rw [h2]; exact hgs)
    unfold withRetry RETRY_ATTEMPTS
    exact h

/-- A capability that raises on every attempt. -/
def alwaysFailF : Nat → Except Err PyVal :=
  fun _ => Except.error (Err.platformFailure "boom")

/-- A capability that raises on attempts 1 and 2 and succeeds on attempt 3. -/
def failTwiceG : Nat → Except Err PyVal :=
  fun i => if i ≤ 2 then Except.error (Err.platformFailure "glitch")
           else Except.ok (PyVal.str "done")

theorem C1_retrying_caller_witness :
    withRetry alwaysFailF = (5, Except.error (Err.platformFailure "boom"))
    ∧ withRetry failTwiceG = (3, Except.ok (PyVal.str "done")) := by
  have h := C1_retrying_caller mcpDefault envEmpty "simulate" [] alwaysFailF failTwiceG
    (fun _ => Err.platformFailure "boom") 2 (PyVal.str "done")
    (fun _ => rfl) (by decide)
    (fun j hj1 hj2 =>
      ⟨Err.platformFailure "glitch", by simp only [failTwiceG]; rw [if_pos hj2]⟩)
    rfl
  exact ⟨h.1, h.2.1⟩

/-- C3 counterexample: with no capability resolvable, `run_tool` does not
surface `ToolNotFound` immediately — the blanket retry policy retries the
`AttributeError` and the call makes 5 attempts, not 1. -/
theorem C3_counterexample :
    run_tool mcpDefault envEmpty "simulate" [] =
      (5, Except.error (Err.toolNotFound
        "Platform tool simulate not found in worldquant_platform_functions"))
    ∧ (5 : Nat) ≠ 1 :=
  ⟨rfl, by decide⟩

/-- C3 (amended): when a capability name does not resolve, `run_tool`,
`wq_create_simulation` and `wq_get_result` raise the `ToolNotFound`
failure with no silent fallback to a different capability — but not
immediately: the blanket retry-on-any-exception policy applies, so the
failure surfaces only after the full 5 attempts. -/
theorem C3_amended_toolNotFound_retried (c : MCPClient) (env : ToolEnv)
    (name : String) (kwargs : List (String × PyVal))
    (settings meta : PyVal) (regular location : String)
    (h1 : env.has name = false)
    (h2 : env.has "create_simulation" = false)
    (h3 : env.has c.query_tool = false) :
    run_tool c env name kwargs = (RETRY_ATTEMPTS, Except.error (Err.toolNotFound
      ("Platform tool " ++ name ++ " not found in worldquant_platform_functions")))
    ∧ wq_create_simulation c env settings regular meta = (RETRY_ATTEMPTS,
        Except.error (Err.toolNotFound "Platform does not implement create_simulation"))
    ∧ wq_get_result c env location = (RETRY_ATTEMPTS, Except.error (Err.toolNotFound
        ("Platform does not implement query tool " ++ c.query_tool))) := by
  refine ⟨?_, ?_, ?_⟩
  · have h := retryRun_allFail (fun i => callTool c env name kwargs i)
      (fun _ => Err.toolNotFound
        ("Platform tool " ++ name ++ " not found in worldquant_platform_functions"))
      (fun i => by simp [callTool, h1]) 4 1
    unfold run_tool withRetry RETRY_ATTEMPTS
    simpa using h
  · have h := retryRun_allFail (wq_create_simulation_attempt c env settings regular meta)
      (fun _ => Err.toolNotFound "Platform does not implement create_simulation")
      (fun i => by simp [wq_create_simulation_attempt, h2]) 4 1
    unfold wq_create_simulation withRetry RETRY_ATTEMPTS
    simpa using h
  · have h := retryRun_allFail (wq_get_result_attempt c env location)
      (fun _ => Err.toolNotFound ("Platform does not implement query tool " ++ c.query_tool))
      (fun i => by simp [wq_get_result_attempt, h3]) 4 1
    unfold wq_get_result withRetry RETRY_ATTEMPTS
    simpa using h

theorem C3_amended_toolNotFound_retried_witness :
    run_tool mcpDefault envEmpty "simulate" [] =
      (5, Except.error (Err.toolNotFound
        "Platform tool simulate not found in worldquant_platform_functions"))
    ∧ wq_get_result mcpDefault envEmpty "somewhere" =
      (5, Except.error (Err.toolNotFound
        "Platform does not implement query tool get_submission_check")) := by
  have h := C3_amended_toolNotFound_retried mcpDefault envEmpty "simulate" []
    PyVal.none PyVal.none "expr" "somewhere" rfl rfl rfl
  exact ⟨h.1, h.2.2⟩

/-- C4 counterexample: the fallback chain stops at the first *resolvable*
capability, not the first *success*.  Here the first resolvable alternate
raises while the next alternate would succeed, yet `store_put` returns
false and `store_get` returns absent without exhausting the alternatives. -/
def envPutCex : ToolEnv :=
  { has := fun s => s == "save_simulation_data" || s == "manage_config",
    wantsTimeout := fun _ => false,
    invoke := fun nm _ _ =>
      if nm == "save_simulation_data" then Except.error (Err.platformFailure "disk full")
      else Except.ok (PyVal.dict [("ok", PyVal.bool true)]) }

/-- Companion environment for the `store_get` half of the C4 counterexample. -/
def envGetCex : ToolEnv :=
  { has := fun s => s == "get_platform_setting_options" || s == "get_user_profile",
    wantsTimeout := fun _ => false,
    invoke := fun nm _ _ =>
      if nm == "get_platform_setting_options" then
        Except.error (Err.platformFailure "disk full")
      else Except.ok (PyVal.dict [("v", PyVal.int 1)]) }

theorem C4_counterexample :
    store_put mcpDefault envPutCex "k" (PyVal.dict []) = false
    ∧ store_put_viaTool mcpDefault envPutCex "manage_config" "k" (PyVal.dict []) = true
    ∧ store_get mcpDefault envGetCex "k" = Option.none
    ∧ store_get_viaTool mcpDefault envGetCex "get_user_profile" "k"
        = some (PyVal.dict [("v", PyVal.int 1)]) :=
  ⟨rfl, rfl, rfl, rfl⟩

/-- C4 (amended): `store_put` and `store_get` try the primary capability
name and then each alternate in a fixed declared order, but stop at the
first *resolvable* name: only that capability is invoked, and if its
invocation fails the operation returns false/absent without trying the
remaining names; false/absent is also returned when no name resolves.
Neither operation ever raises (both are total functions into
`Bool` / `Option`). -/
theorem C4_amended_first_resolvable (c : MCPClient) (env : ToolEnv)
    (key : String) (value : PyVal) :
    (env.has "store_put" = false → env.has "save_simulation_data" = false →
      env.has "manage_config" = false → store_put c env key value = false)
    ∧ (env.has "store_get" = false → env.has "get_platform_setting_options" = false →
      env.has "get_user_profile" = false → store_get c env key = Option.none)
    ∧ (env.has "store_put" = true →
      store_put c env key value = store_put_viaTool c env "store_put" key value)
    ∧ (env.has "store_put" = false → env.has "save_simulation_data" = true →
      store_put c env key value = store_put_viaTool c env "save_simulation_data" key value)
    ∧ (env.has "store_put" = false → env.has "save_simulation_data" = false →
      env.has "manage_config" = true →
      store_put c env key value = store_put_viaTool c env "manage_config" key value)
    ∧ (env.has "store_get" = true →
      store_get c env key = store_get_viaTool c env "store_get" key)
    ∧ (env.has "store_get" = false → env.has "get_platform_setting_options" = true →
      store_get c env key = store_get_viaTool c env "get_platform_setting_options" key)
    ∧ (env.has "store_get" = false → env.has "get_platform_setting_options" = false →
      env.has "get_user_profile" = true →
      store_get c env key = store_get_viaTool c env "get_user_profile" key)
    ∧ (∀ fn e, callTool c env fn [("key", PyVal.str key), ("value", value)] 1
        = Except.error e → store_put_viaTool c env fn key value = false)
    ∧ (∀ fn e, callTool c env fn [("key", PyVal.str key)] 1 = Except.error e →
        store_get_viaTool c env fn key = Option.none) := by
  refine ⟨?_, ?_, ?_, ?_, ?_, ?_, ?_, ?_, ?_, ?_⟩
  · intro h1 h2 h3; simp [store_put, store_put_go, h1, h2, h3]
  · intro h1 h2 h3; simp [store_get, store_get_go, h1, h2, h3]
  · intro h1; simp [store_put, h1]
  · intro h1 h2; simp [store_put, store_put_go, h1, h2]
  · intro h1 h2 h3; simp [store_put, store_put_go, h1, h2, h3]
  · intro h1; simp [store_get, h1]
  · intro h1 h2; simp [store_get, store_get_go, h1, h2]
  · intro h1 h2 h3; simp [store_get, store_get_go, h1, h2, h3]
  · intro fn e he; simp [store_put_viaTool, he]
  · intro fn e he; simp [store_get_viaTool, he]

theorem C4_amended_first_resolvable_witness :
    store_put mcpDefault envEmpty "k" PyVal.none = false
    ∧ store_get mcpDefault envEmpty "k" = Option.none := by
  have h := C4_amended_first_resolvable mcpDefault envEmpty "k" PyVal.none
  exact ⟨h.1 rfl rfl rfl, h.2.1 rfl rfl rfl⟩

/-- C5: a submission response that is not a map or lacks `location`, and a
polling response that is not a map, are raised as failures to which the
retry wrapper applies — retried (a capability that returns bad shapes for
the first `k` attempts and then a good one succeeds on attempt `k + 1`)
and surfaced once the 5 attempts are exhausted; a map-shaped submission
response containing `location` is returned by `wq_create_simulation`
unchanged. -/
theorem C5_submission_validation (c : MCPClient) (env1 env2 env3 : ToolEnv)
    (settings meta : PyVal) (regular location : String)
    (resp badresp goodresp presp : PyVal) (k : Nat)
    (h1has : env1.has "create_simulation" = true)
    (h1inv : ∀ kw i, env1.invoke "create_simulation" kw i = Except.ok resp)
    (h2has : env2.has "create_simulation" = true)
    (hk : k < RETRY_ATTEMPTS)
    (h2bad : ∀ kw j, 1 ≤ j → j ≤ k →
      env2.invoke "create_simulation" kw j = Except.ok badresp)
    (h2good : ∀ kw, env2.invoke "create_simulation" kw (k + 1) = Except.ok goodresp)
    (hbadShape : pyIsDict badresp = false ∨ pyHasKey badresp "location" = false)
    (hgoodShape : pyIsDict goodresp = true)
    (hgoodLoc : pyHasKey goodresp "location" = true)
    (h3has : env3.has c.query_tool = true)
    (h3inv : ∀ kw i, env3.invoke c.query_tool kw i = Except.ok presp)
    (hpnd : pyIsDict presp = false) :
    (pyIsDict resp = true → pyHasKey resp "location" = true →
      wq_create_simulation c env1 settings regular meta = (1, Except.ok resp))
    ∧ (pyIsDict resp = false ∨ pyHasKey resp "location" = false →
      wq_create_simulation c env1 settings regular meta = (RETRY_ATTEMPTS,
        Except.error (Err.invalidResponse
          "create_simulation must return dict containing location")))
    ∧ wq_create_simulation c env2 settings regular meta = (k + 1, Except.ok goodresp)
    ∧ wq_get_result c env3 location = (RETRY_ATTEMPTS,
        Except.error (Err.invalidResponse
          ("Query tool " ++ c.query_tool ++ " returned invalid response"))) := by
  refine ⟨?_, ?_, ?_, ?_⟩
  · intro hd hl
    have hatt : wq_create_simulation_attempt c env1 settings regular meta 1
        = Except.ok resp := by
      simp [wq_create_simulation_attempt, h1has, callTool, h1inv, hd, hl]
    have h := retryRun_succAt (wq_create_simulation_attempt c env1 settings regular meta)
      resp 0 5 1 (by omega) (fun j hj1 hj2 => absurd hj2 (by omega))
      (by simpa using hatt)
    unfold wq_create_simulation withRetry RETRY_ATTEMPTS
    simpa using h
  · intro hbad
    have hatt : ∀ i, wq_create_simulation_attempt c env1 settings regular meta i
        = Except.error (Err.invalidResponse
          "create_simulation must return dict containing location") := by
      intro i
      rcases hbad with hb | hb <;>
        simp [wq_create_simulation_attempt, h1has, callTool, h1inv, hb]
    have h := retryRun_allFail (wq_create_simulation_attempt c env1 settings regular meta)
      (fun _ => Err.invalidResponse
        "create_simulation must return dict containing location")
      hatt 4 1
    unfold wq_create_simulation withRetry RETRY_ATTEMPTS
    simpa using h
  · have hfailatt : ∀ j, 1 ≤ j → j ≤ k →
        wq_create_simulation_attempt c env2 settings regular meta j
          = Except.error (Err.invalidResponse
            "create_simulation must return dict containing location") := by
      intro j hj1 hj2
      rcases hbadShape with hb | hb <;>
        simp [wq_create_simulation_attempt, h2has, callTool,
          h2bad _ j hj1 hj2, hb]
    have hokatt : wq_create_simulation_attempt c env2 settings regular meta (1 + k)
        = Except.ok goodresp := by
      have h2 : 1 + k = k + 1 := by omega
      rw [h2]
      simp [wq_create_simulation_attempt, h2has, callTool, h2good,
        hgoodShape, hgoodLoc]
    have hk5 : k < 5 := hk
    have h := retryRun_succAt (wq_create_simulation_attempt c env2 settings regular meta)
      goodresp k 5 1 hk5
      (fun j hj1 hj2 => ⟨Err.invalidResponse
        "create_simulation must return dict containing location",
        hfailatt j hj1 (by omega)⟩)
      hokatt
    unfold wq_create_simulation withRetry RETRY_ATTEMPTS
    exact h
  · have hatt : ∀ i, wq_get_result_attempt c env3 location i
        = Except.error (Err.invalidResponse
          ("Query tool " ++ c.query_tool ++ " returned invalid response")) := by
      intro i
      simp [wq_get_result_attempt, h3has, callTool, h3inv, hpnd]
    have h := retryRun_allFail (wq_get_result_attempt c env3 location)
      (fun _ => Err.invalidResponse
        ("Query tool " ++ c.query_tool ++ " returned invalid response"))
      hatt 4 1
    unfold wq_get_result withRetry RETRY_ATTEMPTS
    simpa using h

/-- A well-shaped submission response. -/
def respLoc : PyVal := PyVal.dict [("location", PyVal.str "https://platform/sim/1")]

/-- A platform whose submission capability always answers `respLoc`. -/
def envGoodSubmit : ToolEnv :=
  { has := fun s => s == "create_simulation",
    wantsTimeout := fun _ => false,
    invoke := fun _ _ _ => Except.ok respLoc }

/-- A platform whose submission capability answers a non-dict on attempt 1
and `respLoc` from attempt 2 on. -/
def envFlakySubmit : ToolEnv :=
  { has := fun s => s == "create_simulation",
    wantsTimeout := fun _ => false,
    invoke := fun _ _ i =>
      if i ≤ 1 then Except.ok (PyVal.str "oops") else Except.ok respLoc }

/-- A platform whose polling capability always answers a non-dict. -/
def envBadPoll : ToolEnv :=
  { has := fun s => s == "get_submission_check",
    wantsTimeout := fun _ => false,
    invoke := fun _ _ _ => Except.ok (PyVal.str "PENDING") }

theorem C5_submission_validation_witness :
    wq_create_simulation mcpDefault envGoodSubmit (PyVal.dict []) "expr" PyVal.none
      = (1, Except.ok respLoc)
    ∧ wq_create_simulation mcpDefault envFlakySubmit (PyVal.dict []) "expr" PyVal.none
      = (2, Except.ok respLoc)
    ∧ wq_get_result mcpDefault envBadPoll "loc"
      = (5, Except.error (Err.invalidResponse
          "Query tool get_submission_check returned invalid response")) := by
  have h := C5_submission_validation mcpDefault envGoodSubmit envFlakySubmit envBadPoll
    (PyVal.dict []) PyVal.none "expr" "loc"
    respLoc (PyVal.str "oops") respLoc (PyVal.str "PENDING") 1
    rfl (fun _ _ => rfl) rfl (by decide)
    (fun kw j hj1 hj2 => by
      have hj : j = 1 := by omega
      subst hj; rfl)
    (fun _ => rfl) (Or.inl rfl) rfl rfl rfl (fun _ _ => rfl) rfl
  exact ⟨h.1 rfl rfl, h.2.2.1, h.2.2.2⟩

/-- C9: rate-limit wrappers are best-effort and never let a failure
propagate: when no rate-limiting capability resolves, `rate_limit_acquire`
grants the permit (fail-open) and logs that no limiter was found, and
`rate_limit_release` no-ops; when the capability resolves, its outcome is
absorbed locally (a raised failure is logged, never re-raised). -/
theorem C9_rate_limit_best_effort (c : MCPClient) (env : ToolEnv)
    (name : String) (permits : Int) :
    (env.has "acquire_rate_limit" = false →
      rate_limit_acquire c env name permits =
        (true, ["No rate limit acquire tool found; defaulting to True"]))
    ∧ (env.has "release_rate_limit" = false →
      rate_limit_release c env name permits =
        ["No rate limit release tool found; skipping"])
    ∧ (∀ e, env.has "release_rate_limit" = true →
      callTool c env "release_rate_limit"
          [("name", PyVal.str name), ("permits", PyVal.int permits)] 1
        = Except.error e →
      rate_limit_release c env name permits = ["rate_limit_release(" ++ name ++ ") raised"])
    ∧ (∀ resp, env.has "acquire_rate_limit" = true →
      callTool c env "acquire_rate_limit"
          [("name", PyVal.str name), ("permits", PyVal.int permits)] 1
        = Except.ok resp →
      rate_limit_acquire c env name permits = (boolFromResp resp, [])) := by
  refine ⟨?_, ?_, ?_, ?_⟩
  · intro h1; simp [rate_limit_acquire, rate_limit_acquire_go, h1]
  · intro h1; simp [rate_limit_release, rate_limit_release_go, h1]
  · intro e h1 he; simp [rate_limit_release, rate_limit_release_go, h1, he]
  · intro resp h1 hr; simp [rate_limit_acquire, rate_limit_acquire_go, h1, hr]

theorem C9_rate_limit_best_effort_witness :
    rate_limit_acquire mcpDefault envEmpty "wq" 1 =
      (true, ["No rate limit acquire tool found; defaulting to True"])
    ∧ rate_limit_release mcpDefault envEmpty "wq" 1 =
      ["No rate limit release tool found; skipping"] := by
  have h := C9_rate_limit_best_effort mcpDefault envEmpty "wq" 1
  exact ⟨h.1 rfl, h.2.1 rfl⟩

/-- C10: when the rate-limiting capability resolves but its invocation
raises, `rate_limit_acquire` denies the permit — it returns false rather
than granting fail-open — and the exception does not propagate (it is
absorbed into the logged warning). -/
theorem C10_acquire_denies_on_failure (c : MCPClient) (env : ToolEnv)
    (name : String) (permits : Int) (e : Err)
    (hhas : env.has "acquire_rate_limit" = true)
    (herr : callTool c env "acquire_rate_limit"
        [("name", PyVal.str name), ("permits", PyVal.int permits)] 1
      = Except.error e) :
    rate_limit_acquire c env name permits =
      (false, ["rate_limit_acquire(" ++ name ++ ") raised"]) := by
  simp [rate_limit_acquire, rate_limit_acquire_go, hhas, herr]

/-- A platform whose rate limiter resolves but always raises. -/
def envAcqFail : ToolEnv :=
  { has := fun s => s == "acquire_rate_limit",
    wantsTimeout := fun _ => false,
    invoke := fun _ _ _ => Except.error (Err.platformFailure "limiter down") }

theorem C10_acquire_denies_on_failure_witness :
    rate_limit_acquire mcpDefault envAcqFail "wq" 1 =
      (false, ["rate_limit_acquire(wq) raised"]) :=
  C10_acquire_denies_on_failure mcpDefault envAcqFail "wq" 1
    (Err.platformFailure "limiter down") rfl rfl

theorem maxTsRow_append_max (rows : List SnapRow) (new : SnapRow)
    (h : ∀ r ∈ rows, r.ts < new.ts) :
    maxTsRow (rows ++ [new]) = some new := by
  induction rows with
  | nil => simp [maxTsRow]
  | cons r rs ih =>
    have hr : r.ts < new.ts := h r (List.mem_cons_self r rs)
    have ih2 := ih (fun x hx => h x (List.mem_cons_of_mem r hx))
    rw [List.cons_append, maxTsRow, ih2]
    simp [le_of_lt hr]

/-- C7: `save_snapshot` appends one new snapshot row and leaves every prior
row untouched (append-only log); immediately after `save_snapshot(i, s)` —
with no later snapshot and a wall clock strictly past every stored
timestamp, since `ORDER BY ts DESC` leaves the order of equal timestamps
undefined in SQLite — `load_latest_snapshot()` returns `s`; on a store with
no snapshots it returns the empty mapping. -/
theorem C7_snapshot_append_only (st : SQLiteStore) (ts round_idx : Nat) (s : PyVal)
    (hts : ∀ r ∈ st.snapshots, r.ts < ts) :
    (save_snapshot st ts round_idx s).snapshots
      = st.snapshots ++ [⟨ts, round_idx, s⟩]
    ∧ (∀ j, j < st.snapshots.length →
        (save_snapshot st ts round_idx s).snapshots[j]? = st.snapshots[j]?)
    ∧ load_latest_snapshot (save_snapshot st ts round_idx s) = s
    ∧ (∀ st2 : SQLiteStore, st2.snapshots = [] →
        load_latest_snapshot st2 = PyVal.dict []) := by
  refine ⟨rfl, ?_, ?_, ?_⟩
  · intro j hj
    show (st.snapshots ++ [(⟨ts, round_idx, s⟩ : SnapRow)])[j]? = st.snapshots[j]?
    rw [List.getElem?_append]
    rw [if_pos hj]
  · show load_latest_snapshot ⟨st.snapshots ++ [⟨ts, round_idx, s⟩], st.leaderboard⟩ = s
    unfold load_latest_snapshot
    rw [maxTsRow_append_max st.snapshots ⟨ts, round_idx, s⟩ hts]
  · intro st2 h2
    unfold load_latest_snapshot
    rw [h2]
    rfl

/-- A store already holding one snapshot, written at time 1. -/
def storeOneSnap : SQLiteStore :=
  { snapshots := [⟨1, 0, PyVal.dict []⟩], leaderboard := [] }

theorem C7_snapshot_append_only_witness :
    load_latest_snapshot (save_snapshot storeOneSnap 2 1 (PyVal.str "state1"))
      = PyVal.str "state1"
    ∧ load_latest_snapshot emptyStore = PyVal.dict [] := by
  have h := C7_snapshot_append_only storeOneSnap 2 1 (PyVal.str "state1")
    (fun r hr => by
      have h2 : r = ⟨1, 0, PyVal.dict []⟩ := List.mem_singleton.mp hr
      rw [h2]
      decide)
  exact ⟨h.2.2.1, h.2.2.2 emptyStore rfl⟩

theorem sorted_perm_distinct_eq (l1 : List LbRow) :
    ∀ l2, List.Perm l1 l2 → List.Sorted scoreGE l1 → List.Sorted scoreGE l2 →
      List.Pairwise (fun a b : LbRow => a.score ≠ b.score) l1 → l1 = l2 := by
  induction l1 with
  | nil =>
    intro l2 hp _ _ _
    exact (List.Perm.eq_nil hp.symm).symm
  | cons a t1 ih =>
    intro l2 hp hs1 hs2 hd
    cases l2 with
    | nil => exact absurd hp.eq_nil (List.cons_ne_nil a t1)
    | cons b t2 =>
      by_cases hab : a = b
      · subst hab
        have hp2 : List.Perm t1 t2 := hp.cons_inv
        rw [ih t2 hp2 hs1.of_cons hs2.of_cons hd.of_cons]
      · exfalso
        have ha2 : a ∈ b :: t2 := hp.subset (List.mem_cons_self a t1)
        have hat2 : a ∈ t2 := (List.mem_cons.mp ha2).resolve_left hab
        have hb1 : b ∈ a :: t1 := hp.symm.subset (List.mem_cons_self b t2)
        have hbt1 : b ∈ t1 :=
          (List.mem_cons.mp hb1).resolve_left (fun h => hab h.symm)
        have h1 : b.score ≤ a.score := (List.sorted_cons.mp hs1).1 b hbt1
        have h2 : a.score ≤ b.score := (List.sorted_cons.mp hs2).1 a hat2
        exact (List.pairwise_cons.mp hd).1 b hbt1 (le_antisymm h2 h1)

/-- The store of end-to-end scenario C: three leaderboard rows scored
0.5, 0.9, 0.3 in storage order. -/
def scenStoreC : SQLiteStore :=
  add_leaderboard
    (add_leaderboard
      (add_leaderboard emptyStore 10 "e1" (PyVal.dict []) (mkRat 1 2) "c1")
      11 "e2" (PyVal.dict []) (mkRat 9 10) "c2")
    12 "e3" (PyVal.dict []) (mkRat 3 10) "c3"

/-- A leaderboard holding a single row whose stored comment is "note". -/
def storeCex : SQLiteStore :=
  add_leaderboard emptyStore 7 "e" (PyVal.dict []) (mkRat 1 2) "note"

/-- C8 counterexample: the entry returned by `top_k` does not carry the
stored comment — the SELECT omits the `comment` column, so the returned
dict has keys expr/settings/score/ts only, although the stored row's
comment is "note". -/
theorem C8_counterexample :
    top_k storeCex 1 = [PyVal.dict [("expr", PyVal.str "e"),
      ("settings", PyVal.dict []), ("score", PyVal.num (mkRat 1 2)),
      ("ts", PyVal.int 7)]]
    ∧ pyHasKey ((top_k storeCex 1).headD PyVal.none) "comment" = false
    ∧ storeCex.leaderboard = [⟨7, "e", PyVal.dict [], mkRat 1 2, "note"⟩] :=
  ⟨rfl, rfl, rfl⟩

/-- C8 (amended): `top_k k` returns the k highest-scoring rows in
descending score order, each returned entry carrying the expression,
settings, score and timestamp — but not the stored comment, which the
SELECT omits.  SQLite leaves the relative order of rows with equal scores
undefined, so ties are broken in an unspecified order; when the stored
scores are pairwise distinct the returned sequence is uniquely determined
(every ordering compliant with `ORDER BY score DESC` yields the same
output), and over a leaderboard scored [0.5, 0.9, 0.3] — distinct scores —
`top_k 2` returns exactly the 0.9 entry then the 0.5 entry. -/
theorem C8_top_k (st : SQLiteStore) (k : Nat) :
    List.Perm (sortByScoreDesc st.leaderboard) st.leaderboard
    ∧ List.Sorted scoreGE (sortByScoreDesc st.leaderboard)
    ∧ (∀ a ∈ (sortByScoreDesc st.leaderboard).take k,
       ∀ b ∈ (sortByScoreDesc st.leaderboard).drop k, b.score ≤ a.score)
    ∧ top_k st k = ((sortByScoreDesc st.leaderboard).take k).map lbRowToDict
    ∧ (List.Pairwise (fun a b : LbRow => a.score ≠ b.score) st.leaderboard →
        ∀ l2, List.Perm l2 st.leaderboard → List.Sorted scoreGE l2 →
          l2 = sortByScoreDesc st.leaderboard
          ∧ (l2.take k).map lbRowToDict = top_k st k)
    ∧ top_k scenStoreC 2 = [lbRowToDict ⟨11, "e2", PyVal.dict [], mkRat 9 10, "c2"⟩,
        lbRowToDict ⟨10, "e1", PyVal.dict [], mkRat 1 2, "c1"⟩] := by
  refine ⟨List.perm_insertionSort scoreGE st.leaderboard,
    List.sorted_insertionSort scoreGE st.leaderboard, ?_, rfl, ?_, rfl⟩
  · have hs : List.Pairwise scoreGE
        ((sortByScoreDesc st.leaderboard).take k
          ++ (sortByScoreDesc st.leaderboard).drop k) := by
      rw [List.take_append_drop]
      exact List.sorted_insertionSort scoreGE st.leaderboard
    exact fun a ha b hb => (List.pairwise_append.mp hs).2.2 a ha b hb
  · intro hdist l2 hperm hsort
    have hdistl2 : List.Pairwise (fun a b : LbRow => a.score ≠ b.score) l2 :=
      (List.Perm.pairwise_iff (fun h h2 => h h2.symm) hperm).mpr hdist
    have heq : l2 = sortByScoreDesc st.leaderboard :=
      sorted_perm_distinct_eq l2 (sortByScoreDesc st.leaderboard)
        (hperm.trans (List.perm_insertionSort scoreGE st.leaderboard).symm)
        hsort (List.sorted_insertionSort scoreGE st.leaderboard) hdistl2
    exact ⟨heq, by rw [heq]; rfl⟩

theorem C8_top_k_witness :
    top_k scenStoreC 2 = [lbRowToDict ⟨11, "e2", PyVal.dict [], mkRat 9 10, "c2"⟩,
      lbRowToDict ⟨10, "e1", PyVal.dict [], mkRat 1 2, "c1"⟩]
    ∧ mkRat 3 10 ≤ mkRat 9 10
    ∧ ((sortByScoreDesc scenStoreC.leaderboard).take 2).map lbRowToDict
      = top_k scenStoreC 2 := by
  have h := C8_top_k scenStoreC 2
  have hTake : (sortByScoreDesc scenStoreC.leaderboard).take 2
      = [⟨11, "e2", PyVal.dict [], mkRat 9 10, "c2"⟩,
         ⟨10, "e1", PyVal.dict [], mkRat 1 2, "c1"⟩] := rfl
  have hDrop : (sortByScoreDesc scenStoreC.leaderboard).drop 2
      = [⟨12, "e3", PyVal.dict [], mkRat 3 10, "c3"⟩] := rfl
  have hm1 : (⟨11, "e2", PyVal.dict [], mkRat 9 10, "c2"⟩ : LbRow)
      ∈ (sortByScoreDesc scenStoreC.leaderboard).take 2 := by
    rw [hTake]
    exact List.mem_cons_self _ _
  have hm2 : (⟨12, "e3", PyVal.dict [], mkRat 3 10, "c3"⟩ : LbRow)
      ∈ (sortByScoreDesc scenStoreC.leaderboard).drop 2 := by
    rw [hDrop]
    exact List.mem_cons_self _ _
  have h5 := h.2.2.2.2.1 (by decide) (sortByScoreDesc scenStoreC.leaderboard)
    (List.perm_insertionSort scoreGE scenStoreC.leaderboard)
    (List.sorted_insertionSort scoreGE scenStoreC.leaderboard)
  exact ⟨h.2.2.2.2.2, h.2.2.1 _ hm1 _ hm2, h5.2⟩

/-- C6: after the decide stage the run terminates if and only if `stop` is
true; when `stop` is false the conditional edge sends control back to the
author stage — not to the planner stage — and `END` is terminal for the
graph execution. -/
theorem C6_decide_loop_edge :
    (∀ b : Bool, nextNode b GNode.decide = (if b then GNode.END else GNode.author))
    ∧ nextNode true GNode.decide = GNode.END
    ∧ nextNode false GNode.decide = GNode.author
    ∧ GNode.author ≠ GNode.planner
    ∧ (∀ b : Bool, nextNode b GNode.END = GNode.END)
    ∧ (∀ act fuel s, graphInvoke act (fuel + 1) GNode.END s = Except.ok s) :=
  ⟨fun _ => rfl, rfl, rfl, by decide, fun _ => rfl, fun _ _ _ => rfl⟩

theorem C6_decide_loop_edge_witness :
    nextNode false GNode.decide = GNode.author :=
  C6_decide_loop_edge.2.2.1

/-- Node behaviour realizing end-to-end scenario B: the submission
capability is unresolvable, so the submit stage raises what
`wq_create_simulation` raises against the empty platform; the decide stage
increments the round index as the spec's loop does; every other stage
passes the state through. -/
def scenBAct : GNode → GraphState → Except Err GraphState := fun n s =>
  match n with
  | GNode.submit =>
    match (wq_create_simulation mcpDefault envEmpty (PyVal.dict []) "expr" PyVal.none).2 with
    | Except.error e => Except.error e
    | Except.ok _ => Except.ok s
  | GNode.decide => Except.ok { s with round_idx := s.round_idx + 1 }
  | _ => Except.ok s

/-- Node behaviour whose submit stage fails only in round 3: rounds 0 to 2
complete, the decide stage increments the round index, and the failure
strikes when the state has `round_idx = 3`. -/
def cexAct : GNode → GraphState → Except Err GraphState := fun n s =>
  match n with
  | GNode.submit =>
    if s.round_idx == 3 then Except.error (Err.platformFailure "submit failed")
    else Except.ok s
  | GNode.decide => Except.ok { s with round_idx := s.round_idx + 1 }
  | _ => Except.ok s

/-- The state as of just before the failing stage in the `cexAct` run. -/
def cexPre : GraphState := { initState with round_idx := 3 }

/-- C2 counterexample: a run that fails in round 3 — the state just before
the failing stage has `round_idx = 3` — yet the orchestrator's snapshot is
saved from the initial state with `round_idx = 0`, not from the state as of
just before the failing stage. -/
theorem C2_counterexample :
    graphInvoke cexAct 40 GNode.planner initState
      = Except.error (Err.platformFailure "submit failed", cexPre)
    ∧ cexPre.round_idx = 3
    ∧ (mainModel cexAct 40 emptyStore 99 Option.none).store.snapshots
      = [⟨99, 0, stateToPy initState⟩]
    ∧ (0 : Nat) ≠ 3 :=
  ⟨rfl, rfl, rfl, by decide⟩

/-- C2 (amended): whenever a failure propagates out of the round state
machine, `run.main` attempts `store.save_snapshot(init.round_idx,
init.dict())` using the *initial* state (`round_idx = 0`) — not the state
as of just before the failing stage — logs any secondary failure of that
snapshot save without letting it mask the original failure, and re-raises
the original failure; in particular, when the submission capability is
unresolvable the run fails during the first submit stage (pre-failure
state still the initial one) and the snapshot is saved with
`round_idx = 0`. -/
theorem C2_amended_snapshot_initial_state
    (act : GNode → GraphState → Except Err GraphState) (fuel : Nat)
    (st : SQLiteStore) (ts : Nat) (e : Err) (pre : GraphState)
    (hfail : graphInvoke act fuel GNode.planner initState = Except.error (e, pre)) :
    (mainModel act fuel st ts Option.none).raised = some e
    ∧ (mainModel act fuel st ts Option.none).store.snapshots
      = st.snapshots ++ [⟨ts, 0, stateToPy initState⟩]
    ∧ initState.round_idx = 0
    ∧ (mainModel act fuel st ts Option.none).logs
      = ["Graph invocation raised exception:",
         "Saved snapshot of initial state for recovery."]
    ∧ (∀ msg, (mainModel act fuel st ts (some msg)).raised = some e
        ∧ (mainModel act fuel st ts (some msg)).logs
          = ["Graph invocation raised exception:", "Failed to save snapshot: " ++ msg])
    ∧ graphInvoke scenBAct 20 GNode.planner initState
      = Except.error (Err.toolNotFound "Platform does not implement create_simulation",
          initState)
    ∧ (mainModel scenBAct 20 st ts Option.none).store.snapshots
      = st.snapshots ++ [⟨ts, 0, stateToPy initState⟩] := by
  refine ⟨?_, ?_, rfl, ?_, ?_, rfl, rfl⟩
  · simp [mainModel, hfail]
  · simp [mainModel, hfail, save_snapshot]
    rfl
  · simp [mainModel, hfail]
  · intro msg
    refine ⟨?_, ?_⟩ <;> simp [mainModel, hfail]

theorem C2_amended_snapshot_initial_state_witness :
    (mainModel cexAct 40 emptyStore 99 Option.none).raised
      = some (Err.platformFailure "submit failed")
    ∧ (mainModel cexAct 40 emptyStore 99 Option.none).store.snapshots
      = [⟨99, 0, stateToPy initState⟩] := by
  have h := C2_amended_snapshot_initial_state cexAct 40 emptyStore 99
    (Err.platformFailure "submit failed") cexPre rfl
  exact ⟨h.1, h.2.1.trans rfl⟩

end WQAgent
